import Mathlib

/-!
Shallow embedding of `src/services/eviction_ocr_llm_helper.py`:
the eviction / 3-day-notice detection engine (keyword classifier,
multi-pattern date extractor, gap analyzer) and the legal-argument
composer, together with theorems settling the specification claims.
-/

set_option maxRecDepth 4000

namespace Eviction

/-! ## Character classes (ASCII model of Python's `\d`, `\w`, `\s`, `.lower()`) -/

def isDigitChar (c : Char) : Bool := '0' ≤ c && c ≤ '9'

def isWordChar (c : Char) : Bool :=
  ('a' ≤ c && c ≤ 'z') || ('A' ≤ c && c ≤ 'Z') || isDigitChar c || c = '_'

def isSpaceChar (c : Char) : Bool :=
  c = ' ' || c = '\t' || c = '\n' || c = '\r' || c = '\x0b' || c = '\x0c'

def lowerChar (c : Char) : Char :=
  if 'A' ≤ c && c ≤ 'Z' then Char.ofNat (c.toNat + 32) else c

def lowerList (s : List Char) : List Char := s.map lowerChar

/-- Case-sensitive substring containment on char lists
(Python's `pat in text` after both sides are lowered). -/
def containsSub (text pat : List Char) : Bool :=
  match text with
  | [] => pat.isEmpty
  | _ :: rest => pat.isPrefixOf text || containsSub rest pat

/-! ## Calendar dates (`datetime.date` values reachable from `datetime(y, m, d)`) -/

structure Date where
  y : Nat
  m : Nat
  d : Nat
deriving DecidableEq, Repr

/-- Lexicographic strict order on (year, month, day): `datetime` comparison. -/
def dateLt (a b : Date) : Prop :=
  a.y < b.y ∨ (a.y = b.y ∧ (a.m < b.m ∨ (a.m = b.m ∧ a.d < b.d)))

def dateLe (a b : Date) : Prop := dateLt a b ∨ a = b

instance decDateLt : DecidableRel dateLt := fun a b => by
  unfold dateLt; exact inferInstance

instance decDateLe : DecidableRel dateLe := fun a b => by
  unfold dateLe; exact inferInstance

def isLeap (y : Nat) : Bool := y % 4 == 0 && (y % 100 != 0 || y % 400 == 0)

def daysInMonth (y m : Nat) : Nat :=
  if m = 1 then 31
  else if m = 2 then (if isLeap y then 29 else 28)
  else if m = 3 then 31
  else if m = 4 then 30
  else if m = 5 then 31
  else if m = 6 then 30
  else if m = 7 then 31
  else if m = 8 then 31
  else if m = 9 then 30
  else if m = 10 then 31
  else if m = 11 then 30
  else 31

/-- `datetime(y, m, d)` validity check plus construction; Python raises
(and the extractor's `except` clause skips) exactly when this is `none`. -/
def mkDate (y m d : Nat) : Option Date :=
  if 1 ≤ y ∧ y ≤ 9999 ∧ 1 ≤ m ∧ m ≤ 12 ∧ 1 ≤ d ∧ d ≤ daysInMonth y m then
    some ⟨y, m, d⟩
  else none

def daysBeforeMonth (y m : Nat) : Nat :=
  (List.range (m - 1)).foldl (fun a k => a + daysInMonth y (k + 1)) 0

/-- Proleptic-Gregorian day number (`date.toordinal`). -/
def toOrdinal (dt : Date) : Nat :=
  365 * (dt.y - 1) + (dt.y - 1) / 4 - (dt.y - 1) / 100 + (dt.y - 1) / 400
    + daysBeforeMonth dt.y dt.m + dt.d

/-- `abs((b - a).days)` between two dates. -/
def dayDiff (a b : Date) : Nat :=
  ((toOrdinal b : Int) - (toOrdinal a : Int)).natAbs

/-! ## Regex matchers

The three members of `DATE_REGEXES`, embedded as direct backtracking
matchers with Python `re` semantics (greedy quantifiers tried longest
first, alternatives in written order, `\b` word boundaries, IGNORECASE),
and `re.finditer`'s left-to-right non-overlapping scan. -/

def digitsVal (cs : List Char) : Nat :=
  cs.foldl (fun a c => 10 * a + (c.toNat - 48)) 0

/-- Consume exactly `n` digit characters, returning their numeric value. -/
def takeDigits (n : Nat) (s : List Char) : Option (Nat × List Char) :=
  if (s.take n).length = n ∧ (s.take n).all isDigitChar then
    some (digitsVal (s.take n), s.drop n)
  else none

def expectChar (c : Char) (s : List Char) : Option (List Char) :=
  match s with
  | x :: rest => if x = c then some rest else none
  | [] => none

/-- Trailing `\b` after a digit: end of input or a non-word character. -/
def boundaryOk (s : List Char) : Bool :=
  match s with
  | [] => true
  | c :: _ => !(isWordChar c)

/-- A match of one of the two numeric patterns: month, day, year token value. -/
structure RawNum where
  m : Nat
  d : Nat
  y : Nat
deriving DecidableEq, Repr

def yTry (n mth day : Nat) (s : List Char) : Option (RawNum × List Char) :=
  match takeDigits n s with
  | some (yv, r) => if boundaryOk r then some (⟨mth, day, yv⟩, r) else none
  | none => none

/-- `(?P<y>\d{2,4})\b`, greedy. -/
def numYear (mth day : Nat) (s : List Char) : Option (RawNum × List Char) :=
  yTry 4 mth day s <|> yTry 3 mth day s <|> yTry 2 mth day s

def dTry (n : Nat) (sep : Char) (mth : Nat) (s : List Char) :
    Option (RawNum × List Char) :=
  match takeDigits n s with
  | some (dv, r) =>
    match expectChar sep r with
    | some r2 => numYear mth dv r2
    | none => none
  | none => none

def numDay (sep : Char) (mth : Nat) (s : List Char) : Option (RawNum × List Char) :=
  dTry 2 sep mth s <|> dTry 1 sep mth s

def mTry (n : Nat) (sep : Char) (s : List Char) : Option (RawNum × List Char) :=
  match takeDigits n s with
  | some (mv, r) =>
    match expectChar sep r with
    | some r2 => numDay sep mv r2
    | none => none
  | none => none

/-- `\b(?P<m>\d{1,2})SEP(?P<d>\d{1,2})SEP(?P<y>\d{2,4})\b` at the current
position (the leading `\b` is enforced by the scanner). -/
def matchNumAt (sep : Char) (s : List Char) : Option (RawNum × List Char) :=
  mTry 2 sep s <|> mTry 1 sep s

/-- A month-name match: lowered month token, day, year token value. -/
structure RawMon where
  tok : List Char
  d : Nat
  y : Nat
deriving DecidableEq, Repr

/-- `(?:st|nd|rd|th)?` (IGNORECASE): safe to consume greedily. -/
def consumeOrdinal (s : List Char) : List Char :=
  match s with
  | a :: b :: rest =>
    let p := [lowerChar a, lowerChar b]
    if p = ['s', 't'] ∨ p = ['n', 'd'] ∨ p = ['r', 'd'] ∨ p = ['t', 'h'] then rest
    else s
  | _ => s

/-- `(?:,)?`: safe to consume greedily. -/
def consumeComma (s : List Char) : List Char :=
  match s with
  | ',' :: rest => rest
  | _ => s

/-- `\s+(?P<y>\d{4})\b` at the end of the month-name pattern. -/
def monthYearPart (tok : List Char) (day : Nat) (s2 : List Char) :
    Option (RawMon × List Char) :=
  if (s2.takeWhile isSpaceChar).isEmpty then none
  else
    match takeDigits 4 (s2.dropWhile isSpaceChar) with
    | some (yv, r) => if boundaryOk r then some (⟨tok, day, yv⟩, r) else none
    | none => none

/-- After the day digits: ordinal suffix, comma, `\s+`, `(?P<y>\d{4})\b`. -/
def monthTail (tok : List Char) (day : Nat) (s : List Char) :
    Option (RawMon × List Char) :=
  monthYearPart tok day (consumeComma (consumeOrdinal s))

def mdTry (n : Nat) (tok : List Char) (s : List Char) : Option (RawMon × List Char) :=
  match takeDigits n s with
  | some (dv, r) => monthTail tok dv r
  | none => none

/-- `\s+(?P<d>\d{1,2})...` after the month token. -/
def monthAfterTok (tok : List Char) (s : List Char) : Option (RawMon × List Char) :=
  if (s.takeWhile isSpaceChar).isEmpty then none
  else mdTry 2 tok (s.dropWhile isSpaceChar) <|> mdTry 1 tok (s.dropWhile isSpaceChar)

/-- The month alternation `Jan(?:uary)?|...|Dec(?:ember)?` in regex
backtracking order: each branch in written order, long form before the
optional-group-dropped short form. -/
def MONTH_CANDS : List (List Char) :=
  [ "january".toList, "jan".toList, "february".toList, "feb".toList,
    "march".toList, "mar".toList, "april".toList, "apr".toList,
    "may".toList, "june".toList, "jun".toList, "july".toList, "jul".toList,
    "august".toList, "aug".toList, "september".toList, "sep".toList,
    "october".toList, "oct".toList, "november".toList, "nov".toList,
    "december".toList, "dec".toList ]

def tokTry (tok : List Char) (s : List Char) : Option (RawMon × List Char) :=
  if (s.take tok.length).map lowerChar = tok then
    monthAfterTok tok (s.drop tok.length)
  else none

/-- The month-name pattern at the current position. -/
def matchMonAt (s : List Char) : Option (RawMon × List Char) :=
  MONTH_CANDS.foldr (fun tok acc => tokTry tok s <|> acc) none

/-- `re.finditer` scan: left-to-right, non-overlapping; both date patterns
start with `\b` + word character, so a position directly preceded by a word
character cannot start a match. Fuel is the remaining length. -/
def scanAux {α : Type} (matchAt : List Char → Option (α × List Char)) :
    Nat → Bool → List Char → List α
  | 0, _, _ => []
  | _ + 1, _, [] => []
  | fuel + 1, prevW, c :: rest =>
    if prevW then scanAux matchAt fuel (isWordChar c) rest
    else
      match matchAt (c :: rest) with
      | some (r, s2) => r :: scanAux matchAt fuel true s2
      | none => scanAux matchAt fuel (isWordChar c) rest

def runScan {α : Type} (matchAt : List Char → Option (α × List Char))
    (s : List Char) : List α :=
  scanAux matchAt s.length false s

/-! ## Date extraction (`extract_dates`) -/

def MONTH_MAP : List (List Char × Nat) :=
  [ ("jan".toList, 1), ("january".toList, 1),
    ("feb".toList, 2), ("february".toList, 2),
    ("mar".toList, 3), ("march".toList, 3),
    ("apr".toList, 4), ("april".toList, 4),
    ("may".toList, 5),
    ("jun".toList, 6), ("june".toList, 6),
    ("jul".toList, 7), ("july".toList, 7),
    ("aug".toList, 8), ("august".toList, 8),
    ("sep".toList, 9), ("september".toList, 9),
    ("oct".toList, 10), ("october".toList, 10),
    ("nov".toList, 11), ("november".toList, 11),
    ("dec".toList, 12), ("december".toList, 12) ]

def normalize_year (y : Nat) : Nat := if y < 100 then 2000 + y else y

/-- `extract_dates`: run the three patterns over the text in order, build
dates (invalid ones skipped), dedupe by calendar-day value, sort ascending. -/
def extract_dates (text : String) : List Date :=
  let s := text.toList
  let numRaws := runScan (matchNumAt '/') s ++ runScan (matchNumAt '-') s
  let numDates := numRaws.filterMap fun r => mkDate (normalize_year r.y) r.m r.d
  let monDates := (runScan matchMonAt s).filterMap fun r =>
    match MONTH_MAP.lookup r.tok with
    | some mo => mkDate (normalize_year r.y) mo r.d
    | none => none
  List.insertionSort dateLe (numDates ++ monDates).dedup

/-! ## Detection engine (`detect_eviction_and_3_day_gap`) -/

def EVICTION_KEYWORDS : List String :=
  [ "eviction", "unlawful detainer", "notice to quit", "notice to vacate",
    "pay or quit", "cure or quit", "three-day notice", "3-day notice",
    "3 day notice" ]

def THREE_DAY_PHRASES : List String :=
  [ "three-day notice", "three day notice", "3-day notice", "3 day notice",
    "three (3) day", "(3) day notice", "within 3 days", "within three days" ]

structure DetectionResult where
  looks_like_eviction : Bool
  keyword_hits : List String
  explicit_three_day_language : Bool
  extracted_dates : List Date
  date_pairs_with_3_day_gap : List (Date × Date × Nat)
  evicted_with_3_day_gap : Bool
deriving DecidableEq, Repr

/-- The `i < j` double loop over the deduplicated sorted dates, keeping
pairs whose absolute day difference is exactly 3. -/
def gapPairs : List Date → List (Date × Date × Nat)
  | [] => []
  | d :: rest =>
    (rest.filterMap fun e =>
      if dayDiff d e = 3 then some (d, e, dayDiff d e) else none)
      ++ gapPairs rest

def detect_eviction_and_3_day_gap (ocr_text : String) : DetectionResult :=
  let t := lowerList ocr_text.toList
  let keyword_hits := EVICTION_KEYWORDS.filter fun kw => containsSub t kw.toList
  let looks_like_eviction := !keyword_hits.isEmpty
  let explicit_three_day := THREE_DAY_PHRASES.any fun p => containsSub t p.toList
  let dates := extract_dates ocr_text
  let pairs := gapPairs dates
  let has_three_day_gap := explicit_three_day || !pairs.isEmpty
  { looks_like_eviction := looks_like_eviction
    keyword_hits := keyword_hits
    explicit_three_day_language := explicit_three_day
    extracted_dates := dates
    date_pairs_with_3_day_gap := pairs
    evicted_with_3_day_gap := looks_like_eviction && has_three_day_gap }

/-! ## Argument composer (`generate_eviction_argument_section_from_up_codes`) -/

structure LegalArgument where
  short_claim : String
  long_explanation : String
deriving DecidableEq, Repr

def ARG_UP003 : LegalArgument :=
  { short_claim :=
      "I did not receive ten full days to either pay the rent owed or move out."
    long_explanation :=
      "Under C.R.S. 13-40-104(1)(d), a landlord must provide at least ten full days of notice before filing an eviction lawsuit. My eviction notice expired before ten full days had passed." }

def ARG_UP001 : LegalArgument :=
  { short_claim :=
      "I do not owe the rent claimed because I paid the full amount due."
    long_explanation :=
      "A landlord cannot prevail in an eviction case based on nonpayment of rent if the tenant has paid all rent owed, and I am prepared to provide proof of payment." }

def ARG_UP013 : LegalArgument :=
  { short_claim :=
      "I attempted to pay the full amount of rent owed, but my landlord refused to accept it."
    long_explanation :=
      "If a tenant offers full payment of rent, the landlord must accept it and stop the eviction process, even if a lawsuit has already been filed." }

def LEGAL_ARGUMENTS : List (String × LegalArgument) :=
  [("UP003", ARG_UP003), ("UP001", ARG_UP001), ("UP013", ARG_UP013)]

structure TenantContext where
  state : Option String
  eviction_type : Option String

/-- Python renders a missing dict entry as `None` inside an f-string. -/
def renderField (o : Option String) : String :=
  match o with
  | some s => s
  | none => "None"

/-- `[LEGAL_ARGUMENTS[code] for code in up_codes if code in LEGAL_ARGUMENTS][:2]` -/
def valid_args (up_codes : List String) : List LegalArgument :=
  (up_codes.filterMap fun code => LEGAL_ARGUMENTS.lookup code).take 2

def argument_text (args : List LegalArgument) : String :=
  String.intercalate "\n"
    (args.map fun a => "- " ++ a.short_claim ++ " " ++ a.long_explanation)

def build_prompt (args : List LegalArgument) (tenant_context : TenantContext) :
    String :=
  "\nYou are helping a tenant draft a clear, professional legal statement\nto include in an eviction court filing.\n\nSTRICT CONSTRAINTS:\n- Do NOT invent new legal arguments\n- Do NOT add facts not explicitly stated\n- Do NOT cite additional statutes or case law\n- Use respectful, first-person language\n- Merge the arguments into one cohesive narrative (no bullets)\n\nTenant context:\n- State: "
    ++ renderField tenant_context.state
    ++ "\n- Eviction type: " ++ renderField tenant_context.eviction_type
    ++ "\n\nLegal arguments to include:\n" ++ argument_text args
    ++ "\n\nWrite a single well-flowing paragraph explaining why the eviction should not proceed.\n"

/-- The composer, parameterized over the external completion collaborator
(`llm_query_gemini`), which may fail. An empty/invalid code list returns
`ok ""` without consulting the collaborator at all. -/
def generate_eviction_argument_section_from_up_codes
    (llm_query : String → Except String String)
    (up_codes : List String) (tenant_context : TenantContext) :
    Except String String :=
  let va := valid_args up_codes
  if va.isEmpty then Except.ok ""
  else llm_query (build_prompt va tenant_context)

/-! ## Order facts about `dateLt` / `dateLe` -/

theorem dateLt_of_le_of_ne {a b : Date} (h : dateLe a b) (hne : a ≠ b) : dateLt a b :=
  h.elim id fun he => absurd he hne

theorem dateLt_trichotomy (a b : Date) : dateLt a b ∨ a = b ∨ dateLt b a := by
  obtain ⟨y1, m1, d1⟩ := a
  obtain ⟨y2, m2, d2⟩ := b
  simp only [dateLt, Date.mk.injEq]
  omega

theorem dateLt_trans {a b c : Date} (h1 : dateLt a b) (h2 : dateLt b c) : dateLt a c := by
  obtain ⟨y1, m1, d1⟩ := a
  obtain ⟨y2, m2, d2⟩ := b
  obtain ⟨y3, m3, d3⟩ := c
  simp only [dateLt] at h1 h2 ⊢
  omega

theorem dateLt_irrefl (a : Date) : ¬dateLt a a := by
  obtain ⟨y1, m1, d1⟩ := a
  simp only [dateLt]
  omega

theorem dateLt_ne {a b : Date} (h : dateLt a b) : a ≠ b := fun he =>
  dateLt_irrefl b (he ▸ h)

instance : IsTotal Date dateLe :=
  ⟨fun a b => by
    rcases dateLt_trichotomy a b with h | h | h
    · exact Or.inl (Or.inl h)
    · exact Or.inl (Or.inr h)
    · exact Or.inr (Or.inl h)⟩

instance : IsTrans Date dateLe :=
  ⟨fun a b c hab hbc => by
    rcases hab with hab | rfl
    · rcases hbc with hbc | rfl
      · exact Or.inl (dateLt_trans hab hbc)
      · exact Or.inl hab
    · exact hbc⟩

theorem pairwise_dateLt_of_sorted_nodup :
    ∀ (l : List Date), List.Pairwise dateLe l → l.Nodup → List.Pairwise dateLt l
  | [], _, _ => List.Pairwise.nil
  | a :: t, hs, hn => by
    rcases List.pairwise_cons.mp hs with ⟨ha, hs'⟩
    rcases List.nodup_cons.mp hn with ⟨hna, hn'⟩
    exact List.Pairwise.cons
      (fun b hb => dateLt_of_le_of_ne (ha b hb) fun he => hna (he ▸ hb))
      (pairwise_dateLt_of_sorted_nodup t hs' hn')

/-! ## Claim theorems -/

/-- C1: for every input text the detection engine's final verdict equals
(keyword hits non-empty) AND (explicit three-day language OR 3-day gap
pairs non-empty); in particular an empty keyword-hit list forces a
`false` verdict even when a 3-day gap exists. -/
theorem verdict_is_keyword_and_threeDay :
    (∀ t, (detect_eviction_and_3_day_gap t).evicted_with_3_day_gap
        = (!(detect_eviction_and_3_day_gap t).keyword_hits.isEmpty
            && ((detect_eviction_and_3_day_gap t).explicit_three_day_language
                || !(detect_eviction_and_3_day_gap t).date_pairs_with_3_day_gap.isEmpty)))
    ∧ ∀ t, (detect_eviction_and_3_day_gap t).keyword_hits = []
        → (detect_eviction_and_3_day_gap t).evicted_with_3_day_gap = false := by
  have base : ∀ t, (detect_eviction_and_3_day_gap t).evicted_with_3_day_gap
      = (!(detect_eviction_and_3_day_gap t).keyword_hits.isEmpty
          && ((detect_eviction_and_3_day_gap t).explicit_three_day_language
              || !(detect_eviction_and_3_day_gap t).date_pairs_with_3_day_gap.isEmpty)) :=
    fun _ => rfl
  refine ⟨base, fun t h => ?_⟩
  rw [base t, h]
  rfl

/-- C1 witness: a text with two dates exactly 3 days apart but no eviction
keyword has an empty hit list and a `false` final verdict. -/
theorem verdict_is_keyword_and_threeDay_witness :
    (detect_eviction_and_3_day_gap "1/1/2026 and 1/4/2026").keyword_hits = []
      ∧ (detect_eviction_and_3_day_gap "1/1/2026 and 1/4/2026").evicted_with_3_day_gap
          = false :=
  ⟨by decide, verdict_is_keyword_and_threeDay.2 "1/1/2026 and 1/4/2026" (by decide)⟩

/-- C2: for every input text the extracted date sequence is strictly
ascending by calendar day (hence free of duplicate calendar days), and a
numeric-slash form and a month-name form denoting the same physical day
collapse to a single entry: deduplication is by calendar-day value. -/
theorem extract_dates_strict_ascending_dedup :
    (∀ t, List.Pairwise dateLt (extract_dates t))
    ∧ extract_dates "01/04/2026 and January 4th, 2026" = [⟨2026, 1, 4⟩] := by
  refine ⟨fun t => ?_, by decide⟩
  exact pairwise_dateLt_of_sorted_nodup _ (List.sorted_insertionSort dateLe _)
    ((List.perm_insertionSort dateLe _).nodup_iff.mpr (List.nodup_dedup _))

/-- C5: the detection engine is a total function: on every string input
(including the empty string) it returns a well-formed `DetectionResult`
surfacing every intermediate artifact (keyword hits, explicit-language
flag, extracted dates, gap pairs) alongside the final boolean verdict. -/
theorem detection_total_surfaces_artifacts :
    (∀ t, (detect_eviction_and_3_day_gap t).keyword_hits
          = EVICTION_KEYWORDS.filter
              (fun kw => containsSub (lowerList t.toList) kw.toList)
        ∧ (detect_eviction_and_3_day_gap t).explicit_three_day_language
          = THREE_DAY_PHRASES.any
              (fun p => containsSub (lowerList t.toList) p.toList)
        ∧ (detect_eviction_and_3_day_gap t).extracted_dates = extract_dates t
        ∧ (detect_eviction_and_3_day_gap t).date_pairs_with_3_day_gap
          = gapPairs (extract_dates t)
        ∧ (detect_eviction_and_3_day_gap t).looks_like_eviction
          = !(detect_eviction_and_3_day_gap t).keyword_hits.isEmpty)
    ∧ detect_eviction_and_3_day_gap "" =
        { looks_like_eviction := false
          keyword_hits := []
          explicit_three_day_language := false
          extracted_dates := []
          date_pairs_with_3_day_gap := []
          evicted_with_3_day_gap := false } :=
  ⟨fun _ => ⟨rfl, rfl, rfl, rfl, rfl⟩, by decide⟩

/-! ## Gap-analyzer lemmas -/

theorem mem_gapPairs_iff : ∀ (ds : List Date) (p : Date × Date × Nat),
    p ∈ gapPairs ds ↔ ∃ a b, p = (a, b, 3) ∧ dayDiff a b = 3 ∧ List.Sublist [a, b] ds
  | [], p => by
    simp [gapPairs]
  | d :: rest, p => by
    constructor
    · intro hp
      rcases List.mem_append.mp hp with hl | hr
      · rcases List.mem_filterMap.mp hl with ⟨e, he, hfe⟩
        by_cases hdiff : dayDiff d e = 3
        · rw [if_pos hdiff] at hfe
          refine ⟨d, e, ?_, hdiff, List.Sublist.cons₂ d (List.singleton_sublist.mpr he)⟩
          rw [← Option.some_inj.mp hfe, hdiff]
        · rw [if_neg hdiff] at hfe
          cases hfe
      · rcases (mem_gapPairs_iff rest p).mp hr with ⟨a, b, h1, h2, h3⟩
        exact ⟨a, b, h1, h2, h3.cons d⟩
    · rintro ⟨a, b, rfl, hdiff, hsub⟩
      cases hsub with
      | cons _ h' =>
        exact List.mem_append.mpr
          (Or.inr ((mem_gapPairs_iff rest _).mpr ⟨a, b, rfl, hdiff, h'⟩))
      | cons₂ _ h' =>
        refine List.mem_append.mpr (Or.inl (List.mem_filterMap.mpr
          ⟨b, List.singleton_sublist.mp h', ?_⟩))
        rw [if_pos hdiff, hdiff]

theorem pair_sublist_of_get (ds : List Date) :
    ∀ (i j : Nat) (hij : i < j) (hj : j < ds.length),
      List.Sublist [ds.get ⟨i, Nat.lt_trans hij hj⟩, ds.get ⟨j, hj⟩] ds := by
  induction ds with
  | nil => intro i j hij hj; exact absurd hj (by simp)
  | cons d rest ih =>
    intro i j hij hj
    cases j with
    | zero => omega
    | succ j' =>
      cases i with
      | zero =>
        exact List.Sublist.cons₂ d
          (List.singleton_sublist.mpr
            (List.get_mem rest j' (Nat.lt_of_succ_lt_succ hj)))
      | succ i' =>
        exact List.Sublist.cons d
          (ih i' j' (Nat.lt_of_succ_lt_succ hij) (Nat.lt_of_succ_lt_succ hj))

theorem exists_get_of_pair_sublist (ds : List Date) :
    ∀ (a b : Date), List.Sublist [a, b] ds →
      ∃ (i j : Nat) (hij : i < j) (hj : j < ds.length),
        ds.get ⟨i, Nat.lt_trans hij hj⟩ = a ∧ ds.get ⟨j, hj⟩ = b := by
  induction ds with
  | nil => intro a b h; exact absurd h (by simp)
  | cons d rest ih =>
    intro a b h
    cases h with
    | cons _ h' =>
      obtain ⟨i, j, hij, hj, h1, h2⟩ := ih a b h'
      exact ⟨i + 1, j + 1, Nat.succ_lt_succ hij, Nat.succ_lt_succ hj, h1, h2⟩
    | cons₂ _ h' =>
      obtain ⟨⟨j, hj⟩, hbj⟩ := List.mem_iff_get.mp (List.singleton_sublist.mp h')
      exact ⟨0, j + 1, Nat.succ_pos j, Nat.succ_lt_succ hj, rfl, hbj⟩

theorem nodup_gapPairs : ∀ (ds : List Date),
    List.Pairwise dateLt ds → (gapPairs ds).Nodup
  | [], _ => by simp [gapPairs]
  | d :: rest, h => by
    rcases List.pairwise_cons.mp h with ⟨hd, h'⟩
    refine List.Nodup.append ?_ (nodup_gapPairs rest h') ?_
    · refine List.Nodup.filterMap ?_ (h'.imp fun hab => dateLt_ne hab)
      intro e1 e2 p hp1 hp2
      by_cases h1 : dayDiff d e1 = 3
      · rw [if_pos h1] at hp1
        by_cases h2 : dayDiff d e2 = 3
        · rw [if_pos h2] at hp2
          have hq1 : some (d, e1, dayDiff d e1) = some p := hp1
          have hq2 : some (d, e2, dayDiff d e2) = some p := hp2
          have heq : (d, e1, dayDiff d e1) = (d, e2, dayDiff d e2) :=
            Option.some_inj.mp (hq1.trans hq2.symm)
          simpa using congrArg (fun q => q.2.1) heq
        · rw [if_neg h2] at hp2
          simp at hp2
      · rw [if_neg h1] at hp1
        simp at hp1
    · intro p hp1 hp2
      rcases List.mem_filterMap.mp hp1 with ⟨e, _, hfe⟩
      rcases (mem_gapPairs_iff rest p).mp hp2 with ⟨a, b, rfl, _, hsub⟩
      have ha : a ∈ rest := hsub.subset (List.mem_cons_self a [b])
      by_cases hde : dayDiff d e = 3
      · rw [if_pos hde] at hfe
        have heq : (d, e, dayDiff d e) = (a, b, 3) := Option.some_inj.mp hfe
        have had : d = a := congrArg (fun q => q.1) heq
        exact dateLt_irrefl a (had ▸ hd a ha)
      · rw [if_neg hde] at hfe
        cases hfe

/-- C3: over a strictly ascending (deduplicated) date sequence, the gap
analyzer emits the pair at index pair (i, j), i < j, iff the two dates are
exactly 3 days apart; every emitted pair arises from such an index pair;
and no pair is emitted twice (each unordered pair is considered once). -/
theorem gapPairs_sound_complete_once (ds : List Date)
    (hs : List.Pairwise dateLt ds) :
    (∀ (i j : Nat) (hij : i < j) (hj : j < ds.length),
        ((ds.get ⟨i, Nat.lt_trans hij hj⟩, ds.get ⟨j, hj⟩, 3) ∈ gapPairs ds
          ↔ dayDiff (ds.get ⟨i, Nat.lt_trans hij hj⟩) (ds.get ⟨j, hj⟩) = 3))
    ∧ (∀ p ∈ gapPairs ds, ∃ (i j : Nat) (hij : i < j) (hj : j < ds.length),
        p = (ds.get ⟨i, Nat.lt_trans hij hj⟩, ds.get ⟨j, hj⟩, 3)
          ∧ dayDiff (ds.get ⟨i, Nat.lt_trans hij hj⟩) (ds.get ⟨j, hj⟩) = 3)
    ∧ (gapPairs ds).Nodup := by
  refine ⟨?_, ?_, nodup_gapPairs ds hs⟩
  · intro i j hij hj
    constructor
    · intro hmem
      rcases (mem_gapPairs_iff ds _).mp hmem with ⟨a, b, heq, hdiff, _⟩
      have ha : ds.get ⟨i, Nat.lt_trans hij hj⟩ = a :=
        congrArg (fun q => q.1) heq
      have hb : ds.get ⟨j, hj⟩ = b :=
        congrArg (fun q => q.2.1) heq
      rw [ha, hb]
      exact hdiff
    · intro hdiff
      exact (mem_gapPairs_iff ds _).mpr
        ⟨_, _, rfl, hdiff, pair_sublist_of_get ds i j hij hj⟩
  · intro p hp
    rcases (mem_gapPairs_iff ds p).mp hp with ⟨a, b, rfl, hdiff, hsub⟩
    obtain ⟨i, j, hij, hj, ha, hb⟩ := exists_get_of_pair_sublist ds a b hsub
    subst ha
    subst hb
    exact ⟨i, j, hij, hj, rfl, hdiff⟩

/-- C3 witness: a chain of three dates each 3 days apart is strictly
ascending, and the gap analyzer's output on it is duplicate-free. -/
theorem gapPairs_sound_complete_once_witness :
    List.Pairwise dateLt
        ([⟨2026, 1, 1⟩, ⟨2026, 1, 4⟩, ⟨2026, 1, 7⟩] : List Date)
      ∧ (gapPairs ([⟨2026, 1, 1⟩, ⟨2026, 1, 4⟩, ⟨2026, 1, 7⟩] : List Date)).Nodup :=
  ⟨by decide,
    (gapPairs_sound_complete_once
      ([⟨2026, 1, 1⟩, ⟨2026, 1, 4⟩, ⟨2026, 1, 7⟩] : List Date) (by decide)).2.2⟩

/-- The self-test scenario text from the specification (and `run_self_test`). -/
def SELF_TEST_TEXT : String :=
  "THREE-DAY NOTICE TO PAY RENT OR QUIT. Notice served on: 01/01/2026. You must pay within three days. Deadline: 01/04/2026"

/-- C4 counterexample: on the scenario text the keyword-hit list does NOT
contain "within three days" — that phrase is only consulted by the
explicit-three-day-language check, not by the `EVICTION_KEYWORDS` filter. -/
theorem selfTest_within_three_days_not_keyword_hit :
    "within three days" ∉ (detect_eviction_and_3_day_gap SELF_TEST_TEXT).keyword_hits := by
  decide

/-- C4 amended: on the scenario text the keyword hits are exactly
["three-day notice"]; "within three days" instead sets the explicit
three-day-language flag; the extracted dates are 2026-01-01 and
2026-01-04; exactly one 3-day gap pair is produced; the verdict is true. -/
theorem selfTest_scenario_amended :
    detect_eviction_and_3_day_gap SELF_TEST_TEXT =
      { looks_like_eviction := true
        keyword_hits := ["three-day notice"]
        explicit_three_day_language := true
        extracted_dates := [⟨2026, 1, 1⟩, ⟨2026, 1, 4⟩]
        date_pairs_with_3_day_gap := [(⟨2026, 1, 1⟩, ⟨2026, 1, 4⟩, 3)]
        evicted_with_3_day_gap := true } := by
  decide

/-- C6: on a code list none of whose entries is a key of the lookup table
(in particular on the empty list) the composer returns the empty result
and never invokes the external generation function: the outcome is `ok ""`
for EVERY collaborator, including one that always fails. -/
theorem no_valid_codes_returns_empty_without_generation
    (llm_query : String → Except String String) (up_codes : List String)
    (tenant_context : TenantContext)
    (h : ∀ c ∈ up_codes, LEGAL_ARGUMENTS.lookup c = none) :
    generate_eviction_argument_section_from_up_codes llm_query up_codes tenant_context
      = Except.ok "" := by
  have hv : valid_args up_codes = [] := by
    unfold valid_args
    rw [List.filterMap_eq_nil_iff.mpr h]
    rfl
  simp [generate_eviction_argument_section_from_up_codes, hv]

/-- C6 witness: with an all-invalid code list and a collaborator that
fails if ever called, the composer still returns `ok ""`. -/
theorem no_valid_codes_returns_empty_without_generation_witness :
    (∀ c ∈ ["UP999", "UPXYZ"], LEGAL_ARGUMENTS.lookup c = none)
    ∧ generate_eviction_argument_section_from_up_codes
        (fun _ => Except.error "generation attempted") ["UP999", "UPXYZ"]
        ⟨none, none⟩ = Except.ok "" :=
  ⟨by decide,
    no_valid_codes_returns_empty_without_generation
      (fun _ => Except.error "generation attempted") ["UP999", "UPXYZ"]
      ⟨none, none⟩ (by decide)⟩

/-- C7: the composer selects at most 2 arguments; the selection is an
initial segment of the valid-code arguments in input-list order (so
invalid codes are skipped without disturbing the order); and on the
scenario list ["UP003", "UP013", "UP999"] it selects exactly UP003 then
UP013, while the reversed input ["UP013", "UP003"] yields the reversed
selection (input order, not lookup-table order). -/
theorem valid_args_at_most_two_in_input_order :
    (∀ up_codes, (valid_args up_codes).length ≤ 2
      ∧ ∃ t, valid_args up_codes ++ t
          = up_codes.filterMap (fun code => LEGAL_ARGUMENTS.lookup code))
    ∧ valid_args ["UP003", "UP013", "UP999"] = [ARG_UP003, ARG_UP013]
    ∧ valid_args ["UP013", "UP003"] = [ARG_UP013, ARG_UP003] := by
  refine ⟨fun up_codes => ⟨?_, ?_⟩, by decide, by decide⟩
  · simp [valid_args]
  · exact ⟨(up_codes.filterMap fun code => LEGAL_ARGUMENTS.lookup code).drop 2,
      List.take_append_drop 2 _⟩

/-- C8: a parsed year value below 100 is normalized by adding 2000 before
the calendar date is constructed, and a value of 100 or more is kept
unchanged; e.g. the text "1/2/26" extracts the date 2026-01-02. -/
theorem normalize_year_spec :
    (∀ y, y < 100 → normalize_year y = y + 2000)
    ∧ (∀ y, 100 ≤ y → normalize_year y = y)
    ∧ extract_dates "1/2/26" = [⟨2026, 1, 2⟩] := by
  refine ⟨fun y hy => ?_, fun y hy => ?_, by decide⟩
  · unfold normalize_year
    rw [if_pos hy]
    omega
  · unfold normalize_year
    rw [if_neg (by omega)]

/-- C8 witness: the year 26 is normalized to 2026, the year 2026 is kept. -/
theorem normalize_year_spec_witness :
    (26 < 100 ∧ normalize_year 26 = 26 + 2000)
    ∧ (100 ≤ 2026 ∧ normalize_year 2026 = 2026) :=
  ⟨⟨by decide, normalize_year_spec.1 26 (by decide)⟩,
    ⟨by decide, normalize_year_spec.2.1 2026 (by decide)⟩⟩

/-- C9: a duplicated valid code is selected once per occurrence — no
deduplication — and each occurrence consumes one of the 2 slots: the list
["UP003", "UP003", "UP013"] selects the UP003 argument twice and the
UP013 argument not at all. -/
theorem duplicate_codes_counted_per_occurrence :
    valid_args ["UP003", "UP003", "UP013"] = [ARG_UP003, ARG_UP003]
    ∧ ARG_UP013 ∉ valid_args ["UP003", "UP003", "UP013"] :=
  ⟨by decide, by decide⟩

/-! ## The month-name pattern only matches four-digit year tokens -/

theorem takeDigits_eq_some {n : Nat} {s : List Char} {v : Nat} {r : List Char}
    (h : takeDigits n s = some (v, r)) :
    (s.take n).length = n ∧ (s.take n).all isDigitChar = true
      ∧ v = digitsVal (s.take n) := by
  unfold takeDigits at h
  by_cases hc : (s.take n).length = n ∧ (s.take n).all isDigitChar
  · rw [if_pos hc] at h
    have h1 : digitsVal (s.take n) = v :=
      congrArg (fun q => q.1) (Option.some_inj.mp h)
    exact ⟨hc.1, hc.2, h1.symm⟩
  · rw [if_neg hc] at h
    cases h

theorem monthYearPart_year {tok : List Char} {day : Nat} {s2 : List Char}
    {r : RawMon} {rest : List Char}
    (h : monthYearPart tok day s2 = some (r, rest)) :
    ∃ pre : List Char, pre.length = 4 ∧ pre.all isDigitChar = true
      ∧ r.y = digitsVal pre := by
  unfold monthYearPart at h
  split at h
  · simp at h
  · split at h
    · rename_i yv rr heq
      split at h
      · obtain ⟨hl, hall, hval⟩ := takeDigits_eq_some heq
        refine ⟨(s2.dropWhile isSpaceChar).take 4, hl, hall, ?_⟩
        have hr : r = ⟨tok, day, yv⟩ :=
          (congrArg (fun q => q.1) (Option.some_inj.mp h)).symm
        rw [hr]
        exact hval
      · simp at h
    · simp at h

theorem mdTry_year {n : Nat} {tok : List Char} {s : List Char}
    {r : RawMon} {rest : List Char} (h : mdTry n tok s = some (r, rest)) :
    ∃ pre : List Char, pre.length = 4 ∧ pre.all isDigitChar = true
      ∧ r.y = digitsVal pre := by
  unfold mdTry at h
  split at h
  · exact monthYearPart_year h
  · simp at h

theorem orElse_eq_some {α : Type} {x y : Option α} {z : α}
    (h : (x <|> y) = some z) : x = some z ∨ y = some z := by
  cases x with
  | none => exact Or.inr h
  | some a => exact Or.inl h

theorem monthAfterTok_year {tok : List Char} {s : List Char}
    {r : RawMon} {rest : List Char} (h : monthAfterTok tok s = some (r, rest)) :
    ∃ pre : List Char, pre.length = 4 ∧ pre.all isDigitChar = true
      ∧ r.y = digitsVal pre := by
  unfold monthAfterTok at h
  split at h
  · simp at h
  · rcases orElse_eq_some h with h1 | h1
    · exact mdTry_year h1
    · exact mdTry_year h1

theorem tokTry_year {tok : List Char} {s : List Char}
    {r : RawMon} {rest : List Char} (h : tokTry tok s = some (r, rest)) :
    ∃ pre : List Char, pre.length = 4 ∧ pre.all isDigitChar = true
      ∧ r.y = digitsVal pre := by
  unfold tokTry at h
  split at h
  · exact monthAfterTok_year h
  · simp at h

theorem foldr_tokTry_eq_some {s : List Char} {r : RawMon} {rest : List Char} :
    ∀ (L : List (List Char)),
      L.foldr (fun tok acc => tokTry tok s <|> acc) none = some (r, rest) →
      ∃ tok, tokTry tok s = some (r, rest)
  | [], h => by simp at h
  | tok :: L, h => by
    rcases orElse_eq_some h with h1 | h1
    · exact ⟨tok, h1⟩
    · exact foldr_tokTry_eq_some L h1

theorem matchMonAt_year_from_four_digits {s : List Char}
    {r : RawMon} {rest : List Char} (h : matchMonAt s = some (r, rest)) :
    ∃ pre : List Char, pre.length = 4 ∧ pre.all isDigitChar = true
      ∧ r.y = digitsVal pre := by
  obtain ⟨tok, htok⟩ := foldr_tokTry_eq_some MONTH_CANDS h
  exact tokTry_year htok

/-- C10 counterexample: in "January 4, 0026" the numeric slash and dash
patterns find nothing, the month-name pattern matches with year-token
value 26 (from the four digit characters "0026"), and the extracted date
is 2026-01-04: the `y < 100 → y + 2000` normalization fired on a
month-name match, so it is reachable outside the numeric patterns. -/
theorem month_pattern_normalization_reachable :
    runScan (matchNumAt '/') "January 4, 0026".toList = []
    ∧ runScan (matchNumAt '-') "January 4, 0026".toList = []
    ∧ runScan matchMonAt "January 4, 0026".toList = [⟨"january".toList, 4, 26⟩]
    ∧ extract_dates "January 4, 0026" = [⟨2026, 1, 4⟩] :=
  ⟨by decide, by decide, by decide, by decide⟩

/-- C10 amended: the month-name pattern's year group matches exactly four
digit characters, so a month-name date written with a two-digit year such
as "January 4, 26" is never extracted, while the numeric patterns accept
2-4 year digits ("Due 3/4/26 soon" extracts 2026-03-04); however a
four-digit year token with numeric value below 100 (such as "0026") still
undergoes the +2000 normalization through the month-name pattern. -/
theorem month_pattern_four_digit_year :
    (∀ (s : List Char) (r : RawMon) (rest : List Char),
        matchMonAt s = some (r, rest) →
        ∃ pre : List Char, pre.length = 4 ∧ pre.all isDigitChar = true
          ∧ r.y = digitsVal pre)
    ∧ extract_dates "January 4, 26" = []
    ∧ extract_dates "Due 3/4/26 soon" = [⟨2026, 3, 4⟩] :=
  ⟨fun _ _ _ h => matchMonAt_year_from_four_digits h, by decide, by decide⟩

/-- C10 witness: the four-digit-year property instantiated on the text
"may 1 2026", whose month-name match carries year value 2026. -/
theorem month_pattern_four_digit_year_witness :
    ∃ pre : List Char, pre.length = 4 ∧ pre.all isDigitChar = true
      ∧ (RawMon.mk "may".toList 1 2026).y = digitsVal pre :=
  month_pattern_four_digit_year.1 "may 1 2026".toList ⟨"may".toList, 1, 2026⟩ []
    (by decide)

end Eviction
